import Mathlib

/-!
Shallow embedding of `homeassistant/components/light/zwave.py` (Z-Wave light
platform: `ZwaveDimmer` and `ZwaveColorLight`).

Modelling conventions:
* Python numbers are embedded as `ℤ`/`ℕ`/`ℚ` (the float computations in this
  module — `round((data/99)*255, 0)`, `int((b/255)*99)`, the three derived
  color temperatures — have exact values whose rounding/truncation agrees
  with the `ℚ` model on the whole device domain; see comments at use sites).
* The color payload (Python `bytes` such as `b'#ff0080'`) is a `List ℕ`:
  entry 0 is the `#` marker (value 35, never parsed), subsequent entries are
  hex-digit values 0–15, one per hex character.  Python string indices
  therefore coincide with list indices.
* A Python exception that escapes a method is modelled by a `Bool` flag
  (`true` = an uncaught exception propagated to the caller) paired with the
  object state as mutated up to the raise point, or by `Except Unit` for
  pure sub-parsers.
* Functions of `homeassistant.util.color` (`color_temperature_to_rgb`,
  `color_temperature_mired_to_kelvin`, `color_rgb_to_rgbw`,
  `color_rgbw_to_rgb`) and the constants `HASS_COLOR_MIN`/`HASS_COLOR_MAX`
  are external to this module; they are passed as parameters, so every
  theorem quantifies over them.
-/

/-- Python `str.strip()` (both-ends whitespace strip). -/
def pyStrip (s : List Char) : List Char :=
  ((s.dropWhile Char.isWhitespace).reverse.dropWhile Char.isWhitespace).reverse

/-- Value of one hex character, `none` if the character is not a hex digit. -/
def hexCharVal (c : Char) : Option ℕ :=
  if '0' ≤ c ∧ c ≤ '9' then some (c.toNat - '0'.toNat)
  else if 'a' ≤ c ∧ c ≤ 'f' then some (c.toNat - 'a'.toNat + 10)
  else if 'A' ≤ c ∧ c ≤ 'F' then some (c.toNat - 'A'.toNat + 10)
  else none

/-- Python `int(s, 16)` on a string: strips whitespace, accepts an optional
sign and an optional `0x`/`0X` prefix, then requires a nonempty run of hex
digits; raises `ValueError` (modelled as `.error ()`) otherwise. -/
def pyIntStr16 (s : List Char) : Except Unit ℤ :=
  let t := pyStrip s
  let signed : ℤ × List Char :=
    match t with
    | '-' :: r => (-1, r)
    | '+' :: r => (1, r)
    | _ => (1, t)
  let t2 : List Char :=
    match signed.2 with
    | '0' :: c :: r => if c = 'x' ∨ c = 'X' then r else '0' :: c :: r
    | u => u
  if t2 ≠ [] ∧ t2.all (fun c => (hexCharVal c).isSome) then
    .ok (signed.1 * t2.foldl (fun a c => a * 16 + (((hexCharVal c).getD 0 : ℕ) : ℤ)) 0)
  else .error ()

/-- Python slice `l[a:b]` (for `0 ≤ a ≤ b`; out-of-range indices clamp). -/
def pySlice (l : List ℕ) (a b : ℕ) : List ℕ :=
  (l.drop a).take (b - a)

/-- Python `int(digits, 16)` on an already-char-to-digit-mapped slice of the
payload: the empty string raises `ValueError` (`.error ()`), otherwise the
big-endian value of the digits. -/
def pyIntHex (l : List ℕ) : Except Unit ℤ :=
  if l = [] then .error ()
  else .ok (l.foldl (fun a d => a * 16 + (d : ℤ)) 0)

/-- Python `int(q)`: truncation toward zero. -/
def pyIntTrunc (q : ℚ) : ℤ :=
  if 0 ≤ q then ⌊q⌋ else ⌈q⌉

/-- Python `round(q, 0)` (banker's rounding: ties go to the even integer). -/
def pyRound (q : ℚ) : ℤ :=
  if q - ⌊q⌋ = 1/2 then (if ⌊q⌋ % 2 = 0 then ⌊q⌋ else ⌊q⌋ + 1) else round q

/-- Hex digits of `n`, most significant first (`[]` for `0`); first argument
is structural fuel (`n` itself suffices). -/
def hexDigitsAux : ℕ → ℕ → List ℕ
  | _, 0 => []
  | 0, _ + 1 => []
  | f + 1, n + 1 => hexDigitsAux f ((n + 1) / 16) ++ [(n + 1) % 16]

/-- Python `format(n, '02x')`: hex digits of `n`, left-padded with zeros to
width 2. -/
def format02x (n : ℕ) : List ℕ :=
  let d := hexDigitsAux n n
  if d.length < 2 then List.replicate (2 - d.length) 0 ++ d else d

-- Constants of the module (source lines 24–38).

def AEOTEC : ℤ := 0x86

def AEOTEC_ZW098_LED_BULB : ℤ := 0x62

def COLOR_CHANNEL_WARM_WHITE : ℕ := 0x01

def COLOR_CHANNEL_COLD_WHITE : ℕ := 0x02

def COLOR_CHANNEL_RED : ℕ := 0x04

def COLOR_CHANNEL_GREEN : ℕ := 0x08

def COLOR_CHANNEL_BLUE : ℕ := 0x10

/-- `TEMP_MID_HASS = (HASS_COLOR_MAX - HASS_COLOR_MIN) / 2 + HASS_COLOR_MIN`,
parameterized by the external bounds. -/
def TEMP_MID_HASS (cmin cmax : ℚ) : ℚ := (cmax - cmin) / 2 + cmin

/-- `TEMP_WARM_HASS = (HASS_COLOR_MAX - HASS_COLOR_MIN) / 3 * 2 + HASS_COLOR_MIN`. -/
def TEMP_WARM_HASS (cmin cmax : ℚ) : ℚ := (cmax - cmin) / 3 * 2 + cmin

/-- `TEMP_COLD_HASS = (HASS_COLOR_MAX - HASS_COLOR_MIN) / 3 + HASS_COLOR_MIN`. -/
def TEMP_COLD_HASS (cmin cmax : ℚ) : ℚ := (cmax - cmin) / 3 + cmin

/-- `STATE_ON` / `STATE_OFF`. -/
inductive LState where
  | ON
  | OFF
deriving DecidableEq

/-- The Z-Wave values handle of one device: `values.primary.data`,
`values.color` (with its `.data` payload; `none` when the value object is
absent) and `values.color_channels` (`.data` bitmask; `none` when absent). -/
structure LightValues where
  primaryData : ℕ
  colorData : Option (List ℕ)
  colorChannels : Option ℕ
deriving DecidableEq

/-- Mutable attributes of `ZwaveDimmer`: `_brightness`, `_state`, `_zw098`
(`None`/`1` in Python, a `Bool` here). -/
structure DimmerState where
  brightness : Option ℤ
  state : Option LState
  zw098 : Bool
deriving DecidableEq

/-- Additional mutable attributes of `ZwaveColorLight`: `_color_channels`,
`_rgb`, `_ct`. -/
structure ColorState extends DimmerState where
  colorChannels : Option ℕ
  rgb : Option (List ℤ)
  ct : Option ℚ
deriving DecidableEq

/-- `brightness_state(value)` (source lines 67–72):
`round((value.data / 99) * 255, 0), STATE_ON` for positive data, else
`0, STATE_OFF`. -/
def brightness_state (data : ℕ) : ℤ × LState :=
  if data > 0 then (pyRound ((data : ℚ) / 99 * 255), LState.ON)
  else (0, LState.OFF)

/-- `ZwaveDimmer.update_properties` (lines 105–108). -/
def ZwaveDimmer.update_properties (v : LightValues) (s : DimmerState) : DimmerState :=
  let bs := brightness_state v.primaryData
  { s with brightness := some bs.1, state := some bs.2 }

/-- `ZwaveDimmer.is_on` (lines 134–137): `self._state == STATE_ON`. -/
def ZwaveDimmer.is_on (s : DimmerState) : Bool :=
  s.state == some LState.ON

/-- `ZwaveDimmer.__init__` (lines 78–103), restricted to the attributes
modelled here.  Returns the object state and a flag telling whether an
exception escaped the constructor: `int(manufacturer_id, 16)` /
`int(product_id, 16)` raise `ValueError` on non-blank unparsable ids (the
blank check only guards against blank strings, not unparsable ones).
The `DEVICE_MAPPINGS` lookup with its single entry
`(AEOTEC, AEOTEC_ZW098_LED_BULB) ↦ WORKAROUND_ZW098` is inlined as the pair
comparison.  Ends with the `update_properties` call of line 103. -/
def ZwaveDimmer.init (manufacturer_id product_id : List Char) (v : LightValues) :
    DimmerState × Bool :=
  let s : DimmerState := ⟨none, none, false⟩
  if pyStrip manufacturer_id ≠ [] ∧ pyStrip product_id ≠ [] then
    match pyIntStr16 manufacturer_id with
    | .error _ => (s, true)
    | .ok m =>
      match pyIntStr16 product_id with
      | .error _ => (s, true)
      | .ok p =>
        let s := if m = AEOTEC ∧ p = AEOTEC_ZW098_LED_BULB then { s with zw098 := true } else s
        (ZwaveDimmer.update_properties v s, false)
  else (ZwaveDimmer.update_properties v s, false)

/-- Arguments of `turn_on(**kwargs)`: `ATTR_BRIGHTNESS`, `ATTR_RGB_COLOR`,
`ATTR_COLOR_TEMP` (each present or absent). -/
structure TurnOnArgs where
  brightness : Option ℤ
  rgbColor : Option (List ℤ)
  colorTemp : Option ℚ
deriving DecidableEq

/-- `ZwaveDimmer.turn_on` (lines 144–155).  `setRes` is the boolean returned
by the collaborator call `self.node.set_dimmer(...)`.  Returns the new state
and the raw level passed to `set_dimmer`.  Note the order: with a brightness
argument, `self._brightness` is assigned *before* the `set_dimmer` call, and
the raw level is `int((brightness / 255) * 99)`; the literal 255 is sent only
when the brightness argument is absent. -/
def ZwaveDimmer.turn_on (args : TurnOnArgs) (setRes : Bool) (s : DimmerState) :
    DimmerState × ℤ :=
  let sl : DimmerState × ℤ :=
    match args.brightness with
    | some b => ({ s with brightness := some b }, pyIntTrunc ((b : ℚ) / 255 * 99))
    | none => (s, 255)
  if setRes then ({ sl.1 with state := some LState.ON }, sl.2)
  else (sl.1, sl.2)

/-- `ZwaveDimmer.turn_off` (lines 157–160): `set_dimmer(..., 0)`; on success
the state becomes `STATE_OFF`, otherwise nothing changes. -/
def ZwaveDimmer.turn_off (setRes : Bool) (s : DimmerState) : DimmerState :=
  if setRes then { s with state := some LState.OFF } else s

/-- The three `int(data[i:i+2], 16)` reads of lines 197–200 building
`self._rgb` (the list is fully evaluated before assignment, so a raise
leaves `_rgb` untouched). -/
def parseRgbTriple (data : List ℕ) : Except Unit (List ℤ) :=
  match pyIntHex (pySlice data 1 3), pyIntHex (pySlice data 3 5),
      pyIntHex (pySlice data 5 7) with
  | .ok r, .ok g, .ok b => .ok [r, g, b]
  | _, _, _ => .error ()

/-- The warm-white / cold-white channel reads of lines 204–218: a cursor
starts at 7; each white byte is read only when its bitmask bit is set (else
the level is 0), advancing the cursor. -/
def whiteLevels (cc : ℕ) (data : List ℕ) : Except Unit (ℤ × ℤ) :=
  let warmRes : Except Unit (ℤ × ℕ) :=
    if cc &&& COLOR_CHANNEL_WARM_WHITE ≠ 0 then
      match pyIntHex (pySlice data 7 9) with
      | .ok w => .ok (w, 9)
      | .error e => .error e
    else .ok (0, 7)
  match warmRes with
  | .error _ => .error ()
  | .ok wi =>
    match (if cc &&& COLOR_CHANNEL_COLD_WHITE ≠ 0 then
        pyIntHex (pySlice data wi.2 (wi.2 + 2)) else .ok 0) with
    | .error _ => .error ()
    | .ok cold => .ok (wi.1, cold)

/-- Tail of `ZwaveColorLight.update_properties` (lines 220–244): the ZW098
workaround / white-blending resolution followed by the final
"no rgb channels ⇒ rgb is None" override.  `rgb0` is the parsed RGB triple
(the current `self._rgb`), `warm_white`/`cold_white` the parsed white
levels. -/
def postColor (ctRgb : ℚ → List ℤ) (rgbwToRgb : List ℤ → ℤ → List ℤ)
    (cmin cmax : ℚ) (cc : ℕ) (warm_white cold_white : ℤ) (rgb0 : List ℤ)
    (s : ColorState) : ColorState :=
  let s :=
    if s.zw098 then
      if warm_white > 0 then
        { s with ct := some (TEMP_WARM_HASS cmin cmax),
                 rgb := some (ctRgb (TEMP_WARM_HASS cmin cmax)) }
      else if cold_white > 0 then
        { s with ct := some (TEMP_COLD_HASS cmin cmax),
                 rgb := some (ctRgb (TEMP_COLD_HASS cmin cmax)) }
      else
        { s with ct := some (TEMP_MID_HASS cmin cmax) }
    else if cc &&& COLOR_CHANNEL_WARM_WHITE ≠ 0 then
      { s with rgb := some (rgbwToRgb rgb0 warm_white) }
    else if cc &&& COLOR_CHANNEL_COLD_WHITE ≠ 0 then
      { s with rgb := some (rgbwToRgb rgb0 cold_white) }
    else s
  -- `if not (cc & RED or cc & GREEN or cc & BLUE): self._rgb = None`
  if ¬(cc &&& COLOR_CHANNEL_RED ≠ 0 ∨ cc &&& COLOR_CHANNEL_GREEN ≠ 0 ∨
      cc &&& COLOR_CHANNEL_BLUE ≠ 0) then
    { s with rgb := none }
  else s

/-- `ZwaveColorLight.update_properties` (lines 181–244), parameterized by the
external helpers: `ctRgb` stands for `ct_to_rgb` (a composition of
`homeassistant.util.color` functions), `rgbwToRgb` for `color_rgbw_to_rgb`
(applied to the parsed rgb list and the white level), and `cmin`/`cmax` for
`HASS_COLOR_MIN`/`HASS_COLOR_MAX`.  The `Bool` of the result is `true` when
a `ValueError` from a payload slice parse escaped the method (there is no
handler in the source); the returned state carries the mutations performed
before the raise point. -/
def ZwaveColorLight.update_properties (ctRgb : ℚ → List ℤ)
    (rgbwToRgb : List ℤ → ℤ → List ℤ) (cmin cmax : ℚ)
    (v : LightValues) (s0 : ColorState) : ColorState × Bool :=
  -- super().update_properties()
  let s := { s0 with toDimmerState := ZwaveDimmer.update_properties v s0.toDimmerState }
  match v.colorData with
  | none => (s, false)          -- `if self.values.color is None: return`
  | some data =>
    match v.colorChannels with
    | none => (s, false)        -- `if self.values.color_channels is None: return`
    | some cc =>
      let s := { s with colorChannels := some cc }
      match parseRgbTriple data with
      | .error _ => (s, true)
      | .ok rgb0 =>
        let s := { s with rgb := some rgb0 }
        match whiteLevels cc data with
        | .error _ => (s, true)
        | .ok wc =>
          (postColor ctRgb rgbwToRgb cmin cmax cc wc.1 wc.2 rgb0 s, false)

/-- The `rgbw += format(colorval, '02x')` loop of lines 278–284 (the encoded
values are nonnegative in every modelled call). -/
def encodeColorList (l : List ℤ) : List ℕ :=
  l.foldl (fun acc colorval => acc ++ format02x colorval.toNat) []

/-- Result of `ZwaveColorLight.turn_on`: the object state, the payload
written to `self.values.color.data` (if any), the raw level passed to
`set_dimmer` by `super().turn_on` (absent when an exception aborted the
method first), and whether an exception escaped. -/
structure TurnOnResult where
  light : ColorState
  colorWrite : Option (List ℕ)
  dimmerLevel : Option ℤ
  raised : Bool

/-- `ZwaveColorLight.turn_on` (lines 256–290), parameterized by the external
`color_rgb_to_rgbw` (`rgbToRgbw`, mapping the rgb list to the rgbw list) and
the color-temperature bounds.  With a `color_temp` argument on a ZW098
device, one of the two literal payloads `b'#000000ff00'` / `b'#00000000ff'`
is selected by comparison with `TEMP_MID_HASS`; with an `rgb_color` argument
the payload is assembled from hex bytes.  `self._color_channels` being `None`
in the white-channel test raises a `TypeError` (no handler).  The payload is
written only when `rgbw` is nonempty and the color value object exists, and
then `super().turn_on(**kwargs)` runs. -/
def ZwaveColorLight.turn_on (rgbToRgbw : List ℤ → List ℤ) (cmin cmax : ℚ)
    (args : TurnOnArgs) (setRes : Bool) (v : LightValues) (s : ColorState) :
    TurnOnResult :=
  let step : ColorState × Option (List ℕ) × Bool :=
    match args.colorTemp with
    | some t =>
      if s.zw098 then
        if t > TEMP_MID_HASS cmin cmax then
          ({ s with ct := some (TEMP_WARM_HASS cmin cmax) },
            some [35, 0, 0, 0, 0, 0, 0, 15, 15, 0, 0], false)   -- b'#000000ff00'
        else
          ({ s with ct := some (TEMP_COLD_HASS cmin cmax) },
            some [35, 0, 0, 0, 0, 0, 0, 0, 0, 15, 15], false)   -- b'#00000000ff'
      else (s, none, false)
    | none =>
      match args.rgbColor with
      | some rgb =>
        let s := { s with rgb := some rgb }
        if s.zw098 then
          -- `not self._zw098` is false: short-circuit to the plain branch
          (s, some (35 :: encodeColorList rgb ++ [0, 0, 0, 0]), false)
        else
          match s.colorChannels with
          | none => (s, none, true)   -- `None & int` raises TypeError
          | some cc =>
            if cc &&& COLOR_CHANNEL_WARM_WHITE ≠ 0 ∨
                cc &&& COLOR_CHANNEL_COLD_WHITE ≠ 0 then
              (s, some (35 :: encodeColorList (rgbToRgbw rgb) ++ [0, 0]), false)
            else
              (s, some (35 :: encodeColorList rgb ++ [0, 0, 0, 0]), false)
      | none => (s, none, false)
  if step.2.2 then
    { light := step.1, colorWrite := none, dimmerLevel := none, raised := true }
  else
    let write : Option (List ℕ) :=
      match step.2.1 with
      | some w => if v.colorData.isSome then some w else none
      | none => none
    let d := ZwaveDimmer.turn_on args setRes step.1.toDimmerState
    { light := { step.1 with toDimmerState := d.1 },
      colorWrite := write, dimmerLevel := some d.2, raised := false }

/-! ## Helper lemmas -/

set_option maxRecDepth 4000

/-- A two-hex-digit render of a byte value is its two base-16 digits. -/
theorem format02x_byte : ∀ n < 256, format02x n = [n / 16, n % 16] := by decide

/-- Bit facts about a bitmask whose set bits lie among RED/GREEN/BLUE. -/
theorem rgb_only_bits : ∀ c < 32, c &&& 3 = 0 →
    (c &&& 1 = 0 ∧ c &&& 2 = 0 ∧
      (c ≠ 0 → (c &&& 4 ≠ 0 ∨ c &&& 8 ≠ 0 ∨ c &&& 16 ≠ 0))) := by decide

/-- The value `(r/99)·255` is never half way between two integers (parity:
`510·r` is even while `198·k + 99` is odd), so Python's banker rounding and
round-half-up agree on it. -/
theorem no_tie (r : ℕ) : ((r : ℚ) / 99 * 255 - ⌊(r : ℚ) / 99 * 255⌋) ≠ 1/2 := by
  intro h
  set q : ℚ := (r : ℚ) / 99 * 255 with hq
  have hfl : (⌊q⌋ : ℚ) = q - 1/2 := by linarith
  have h2 : (510 * (r : ℚ)) = 198 * (⌊q⌋ : ℚ) + 99 := by
    rw [hfl, hq]
    field_simp
    ring
  have h3 : (510 * (r : ℤ)) = 198 * ⌊q⌋ + 99 := by exact_mod_cast h2
  omega

theorem pyRound_eq_round (r : ℕ) :
    pyRound ((r : ℚ) / 99 * 255) = round ((r : ℚ) / 99 * 255) := by
  rw [pyRound, if_neg (no_tie r)]

/-! ## Claims C2, C3, C4, C7 (dimmer layer) -/

/-- C2, counterexample: calling `turn_on` with brightness 255 sends raw
level `int((255/255)*99) = 99` to `set_dimmer`, not the 255 sentinel the
claim asserts. -/
theorem C2_counterexample :
    (ZwaveDimmer.turn_on ⟨some 255, none, none⟩ true ⟨none, none, false⟩).2 = 99 ∧
    (ZwaveDimmer.turn_on ⟨some 255, none, none⟩ true ⟨none, none, false⟩).2 ≠ 255 := by
  have h : (ZwaveDimmer.turn_on ⟨some 255, none, none⟩ true ⟨none, none, false⟩).2 = 99 := by
    simp only [ZwaveDimmer.turn_on, pyIntTrunc]
    norm_num
  exact ⟨h, by rw [h]; decide⟩

/-- C2, amended: the raw level 255 ("restore previous level") is sent
exactly when the brightness argument is absent; an explicit brightness of
255 is converted like any other value, to `int((255/255)*99) = 99`. -/
theorem C2_amended_levels (s : DimmerState) (res : Bool) :
    (ZwaveDimmer.turn_on ⟨none, none, none⟩ res s).2 = 255 ∧
    (ZwaveDimmer.turn_on ⟨some 255, none, none⟩ res s).2 = 99 := by
  constructor
  · cases res <;> rfl
  · cases res <;> · simp only [ZwaveDimmer.turn_on, pyIntTrunc]
                    norm_num

/-- C3, counterexample: a non-blank, non-hex manufacturer id makes
`int(manufacturer_id, 16)` raise `ValueError`, so construction does *not*
complete normally (second component `true` = exception escaped
`__init__`). -/
theorem C3_counterexample :
    ZwaveDimmer.init ['z', 'z'] ['6', '2'] ⟨0, none, none⟩ =
      (⟨none, none, false⟩, true) := by decide

/-- C3, amended: a blank (after strip) manufacturer or product id silently
skips workaround assignment and construction completes normally with
`_zw098` unset; a *non-blank* id that does not parse as hex instead raises
`ValueError` out of the constructor. -/
theorem C3_amended_ids (m p : List Char) (v : LightValues) (a : ℤ) :
    ((pyStrip m = [] ∨ pyStrip p = []) →
      ZwaveDimmer.init m p v =
        (ZwaveDimmer.update_properties v ⟨none, none, false⟩, false)) ∧
    (pyStrip m ≠ [] → pyStrip p ≠ [] → pyIntStr16 m = .error () →
      ZwaveDimmer.init m p v = (⟨none, none, false⟩, true)) ∧
    (pyStrip m ≠ [] → pyStrip p ≠ [] → pyIntStr16 m = .ok a →
      pyIntStr16 p = .error () →
      ZwaveDimmer.init m p v = (⟨none, none, false⟩, true)) := by
  refine ⟨fun h => ?_, fun h1 h2 h3 => ?_, fun h1 h2 h3 h4 => ?_⟩
  · rw [ZwaveDimmer.init, if_neg (by tauto)]
  · rw [ZwaveDimmer.init, if_pos ⟨h1, h2⟩, h3]
  · rw [ZwaveDimmer.init, if_pos ⟨h1, h2⟩, h3, h4]

/-- C3, witness for the amended theorem, at blank manufacturer id and at an
unparsable product id. -/
theorem C3_witness :
    ZwaveDimmer.init [' '] ['6', '2'] ⟨0, none, none⟩ =
      (ZwaveDimmer.update_properties ⟨0, none, none⟩ ⟨none, none, false⟩, false) ∧
    ZwaveDimmer.init ['8', '6'] ['q'] ⟨0, none, none⟩ =
      (⟨none, none, false⟩, true) := by
  constructor
  · exact (C3_amended_ids [' '] ['6', '2'] ⟨0, none, none⟩ 0).1 (.inl (by decide))
  · exact (C3_amended_ids ['8', '6'] ['q'] ⟨0, none, none⟩ 134).2.2
      (by decide) (by decide) rfl rfl

/-- C4, counterexample: `turn_on` with a brightness argument assigns
`self._brightness` *before* the `set_dimmer` call, so on a rejected write
the observable brightness has changed (100 → 200) even though `is_on` has
not. -/
theorem C4_counterexample :
    (ZwaveDimmer.turn_on ⟨some 200, none, none⟩ false
        ⟨some 100, some LState.ON, false⟩).1.brightness = some 200 ∧
    (⟨some 100, some LState.ON, false⟩ : DimmerState).brightness = some 100 := by
  constructor <;> rfl

/-- C4, amended: on a rejected `set_dimmer` write, `is_on` stays unchanged
for both `turn_on` and `turn_off`, and `turn_off` (and `turn_on` without a
brightness argument) leaves the whole state unchanged; but `turn_on` *with*
a brightness argument has already updated the exposed brightness to the
requested value when the write fails. -/
theorem C4_amended_frame (args : TurnOnArgs) (s : DimmerState) :
    ZwaveDimmer.is_on (ZwaveDimmer.turn_on args false s).1 = ZwaveDimmer.is_on s ∧
    (args.brightness = none → (ZwaveDimmer.turn_on args false s).1 = s) ∧
    ZwaveDimmer.turn_off false s = s := by
  refine ⟨?_, fun h => ?_, rfl⟩
  · cases hb : args.brightness <;>
      simp [ZwaveDimmer.turn_on, ZwaveDimmer.is_on, hb]
  · simp [ZwaveDimmer.turn_on, h]

/-- C4, witness: rejected `turn_on` without brightness argument leaves the
state exactly as it was. -/
theorem C4_witness :
    (ZwaveDimmer.turn_on ⟨none, none, none⟩ false
        ⟨some 100, some LState.ON, false⟩).1 = ⟨some 100, some LState.ON, false⟩ :=
  (C4_amended_frame ⟨none, none, none⟩ ⟨some 100, some LState.ON, false⟩).2.1 rfl

/-- C7, confirmed: for raw levels 1–99 `brightness_state` reports `STATE_ON`
with brightness `round(raw/99 · 255)` (the tie-free lemma shows Python's
banker rounding agrees with `round` on this family), and raw level 0
reports `STATE_OFF` with brightness 0. -/
theorem C7_brightness_state :
    (∀ r : ℕ, 1 ≤ r → r ≤ 99 →
      brightness_state r = (round ((r : ℚ) / 99 * 255), LState.ON)) ∧
    brightness_state 0 = (0, LState.OFF) := by
  refine ⟨fun r h1 _ => ?_, rfl⟩
  rw [brightness_state, if_pos (by omega : r > 0), pyRound_eq_round]

/-- C7, witness at raw level 50: `round((50/99)·255) = 129` and the state
is on. -/
theorem C7_witness : brightness_state 50 = (129, LState.ON) := by
  have h := C7_brightness_state.1 50 (by norm_num) (by norm_num)
  rw [h, round_eq]
  norm_num

/-! ## Helper lemmas for the color layer -/

/-- Reduction of `ZwaveColorLight.update_properties` when both values are
present and both payload parses succeed. -/
theorem update_properties_ok (ctRgb : ℚ → List ℤ) (rgbwToRgb : List ℤ → ℤ → List ℤ)
    (cmin cmax : ℚ) (v : LightValues) (s : ColorState) (d : List ℕ) (cc : ℕ)
    (rgb0 : List ℤ) (warm cold : ℤ)
    (hd : v.colorData = some d) (hc : v.colorChannels = some cc)
    (hr : parseRgbTriple d = .ok rgb0) (hw : whiteLevels cc d = .ok (warm, cold)) :
    ZwaveColorLight.update_properties ctRgb rgbwToRgb cmin cmax v s =
      (postColor ctRgb rgbwToRgb cmin cmax cc warm cold rgb0
        { s with toDimmerState := ZwaveDimmer.update_properties v s.toDimmerState,
                 colorChannels := some cc, rgb := some rgb0 }, false) := by
  obtain ⟨p, cd, cch⟩ := v
  simp only at hd hc
  subst hd
  subst hc
  simp only [ZwaveColorLight.update_properties, hr, hw]

/-- With no white bit set, the white parse reads nothing and yields `(0, 0)`. -/
theorem whiteLevels_no_white (cc : ℕ) (d : List ℕ)
    (h1 : cc &&& COLOR_CHANNEL_WARM_WHITE = 0) (h2 : cc &&& COLOR_CHANNEL_COLD_WHITE = 0) :
    whiteLevels cc d = .ok (0, 0) := by
  simp [whiteLevels, h1, h2]

/-- Decoding the three RGB byte slices of an encoded plain-RGB payload
recovers the encoded triple (any payload tail is ignored by the slices). -/
theorem parseRgbTriple_encode (r g b : ℕ) (tail : List ℕ)
    (hr : r < 256) (hg : g < 256) (hb : b < 256) :
    parseRgbTriple (35 :: encodeColorList [(r : ℤ), (g : ℤ), (b : ℤ)] ++ tail) =
      .ok [(r : ℤ), (g : ℤ), (b : ℤ)] := by
  have er := format02x_byte r hr
  have eg := format02x_byte g hg
  have eb := format02x_byte b hb
  simp only [encodeColorList, List.foldl, Int.toNat_natCast, er, eg, eb]
  simp only [parseRgbTriple, pySlice, List.nil_append, List.cons_append,
    List.drop_succ_cons, List.drop_zero, List.take_succ_cons, List.take_zero]
  norm_num [pyIntHex]
  have hne : ∀ (x y : ℕ), ¬(([x, y] : List ℕ) = []) := by simp
  rw [if_neg (hne _ _), if_neg (hne _ _), if_neg (hne _ _)]
  simp only [Except.ok.injEq, List.cons.injEq, and_true]
  refine ⟨?_, ?_, ?_⟩ <;> omega

/-! ## Claims C1, C5, C6, C8, C9, C10 (color layer) -/

/-- C1, counterexample: an RGB-only device (`bitmask 0x1C`) receiving the
too-short payload `#ff00` makes `update_properties` raise an uncaught
`ValueError` (`int('', 16)` on the empty blue slice): the exception
propagates to the caller (result flag `true`), contradicting the claimed
log-and-continue policy. -/
theorem C1_counterexample :
    (ZwaveColorLight.update_properties (fun _ => [0, 0, 0]) (fun r _ => r) 154 500
        ⟨50, some [35, 15, 15, 0, 0], some 28⟩
        ⟨⟨none, none, false⟩, none, none, none⟩).2 = true := rfl

/-- C1, amended: when the payload is missing a whole required byte slice,
`update_properties` raises an uncaught `ValueError` that propagates to the
caller (no logging, no handler exists).  `color_temp` is never changed by a
failing decode, and `rgb_color` is left unchanged when the RGB slices
themselves fail, but it *is* already overwritten with the freshly parsed
triple when only a required white slice is missing; `_color_channels` and
the brightness attributes are updated in every case. -/
theorem C1_amended_raise (ctRgb : ℚ → List ℤ) (rgbwToRgb : List ℤ → ℤ → List ℤ)
    (cmin cmax : ℚ) (v : LightValues) (s : ColorState) (d : List ℕ) (cc : ℕ)
    (hd : v.colorData = some d) (hc : v.colorChannels = some cc) :
    (parseRgbTriple d = .error () →
      ZwaveColorLight.update_properties ctRgb rgbwToRgb cmin cmax v s =
        ({ s with toDimmerState := ZwaveDimmer.update_properties v s.toDimmerState,
                  colorChannels := some cc }, true)) ∧
    (∀ rgb0 : List ℤ, parseRgbTriple d = .ok rgb0 → whiteLevels cc d = .error () →
      ZwaveColorLight.update_properties ctRgb rgbwToRgb cmin cmax v s =
        ({ s with toDimmerState := ZwaveDimmer.update_properties v s.toDimmerState,
                  colorChannels := some cc, rgb := some rgb0 }, true)) := by
  obtain ⟨p, cd, cch⟩ := v
  simp only at hd hc
  subst hd
  subst hc
  refine ⟨fun h => ?_, fun rgb0 h1 h2 => ?_⟩
  · simp only [ZwaveColorLight.update_properties, h]
  · simp only [ZwaveColorLight.update_properties, h1, h2]

/-- C1, witness for the amended theorem: the `#ff00` short payload raises,
and the previously decoded color attributes (`rgb = [1,2,3]`,
`ct = 320`) survive unchanged in the carried state. -/
theorem C1_witness :
    ZwaveColorLight.update_properties (fun _ => [0, 0, 0]) (fun r _ => r) 154 500
        ⟨50, some [35, 15, 15, 0, 0], some 28⟩
        ⟨⟨some 7, some LState.ON, false⟩, some 28, some [1, 2, 3], some 320⟩ =
      ({ (⟨⟨some 7, some LState.ON, false⟩, some 28, some [1, 2, 3], some 320⟩ : ColorState) with
          toDimmerState := ZwaveDimmer.update_properties
            ⟨50, some [35, 15, 15, 0, 0], some 28⟩ ⟨some 7, some LState.ON, false⟩,
          colorChannels := some 28 }, true) :=
  (C1_amended_raise (fun _ => [0, 0, 0]) (fun r _ => r) 154 500
    ⟨50, some [35, 15, 15, 0, 0], some 28⟩
    ⟨⟨some 7, some LState.ON, false⟩, some 28, some [1, 2, 3], some 320⟩
    [35, 15, 15, 0, 0] 28 rfl rfl).1 rfl

/-- C5, counterexample: on a ZW098 device whose bitmask has only the
warm-white bit (`0x01`), a successful decode with warm level `0x10 > 0`
ends with `rgb_color` absent (`none`) because of the final
no-rgb-channels override — not `ct_to_rgb(WARM)` as the claim states for
every ZW098 decode. -/
theorem C5_counterexample :
    (ZwaveColorLight.update_properties (fun _ => [9, 9, 9]) (fun r _ => r) 154 500
        ⟨50, some [35, 0, 0, 0, 0, 0, 0, 1, 0], some 1⟩
        ⟨⟨none, none, true⟩, none, none, none⟩).1.rgb = none ∧
    (ZwaveColorLight.update_properties (fun _ => [9, 9, 9]) (fun r _ => r) 154 500
        ⟨50, some [35, 0, 0, 0, 0, 0, 0, 1, 0], some 1⟩
        ⟨⟨none, none, true⟩, none, none, none⟩).2 = false ∧
    whiteLevels 1 [35, 0, 0, 0, 0, 0, 0, 1, 0] = .ok (16, 0) :=
  ⟨rfl, rfl, rfl⟩

/-- C5, amended: on a ZW098 device whose bitmask has at least one of the
RED/GREEN/BLUE bits, a successful decode resolves exactly as claimed:
warm > 0 ⇒ `color_temp = WARM` and `rgb = ct_to_rgb(WARM)`; else cold > 0 ⇒
`COLD` likewise; else `color_temp = MID` and `rgb` stays the parsed triple.
(Without an RGB bit, the final override reports `rgb` as absent instead.) -/
theorem C5_amended_zw098_decode (ctRgb : ℚ → List ℤ) (rgbwToRgb : List ℤ → ℤ → List ℤ)
    (cmin cmax : ℚ) (v : LightValues) (s : ColorState) (d : List ℕ) (cc : ℕ)
    (rgb0 : List ℤ) (warm cold : ℤ)
    (hz : s.zw098 = true) (hd : v.colorData = some d) (hc : v.colorChannels = some cc)
    (hr : parseRgbTriple d = .ok rgb0) (hw : whiteLevels cc d = .ok (warm, cold))
    (hbit : cc &&& COLOR_CHANNEL_RED ≠ 0 ∨ cc &&& COLOR_CHANNEL_GREEN ≠ 0 ∨
      cc &&& COLOR_CHANNEL_BLUE ≠ 0) :
    (0 < warm →
      (ZwaveColorLight.update_properties ctRgb rgbwToRgb cmin cmax v s).1.ct =
          some (TEMP_WARM_HASS cmin cmax) ∧
        (ZwaveColorLight.update_properties ctRgb rgbwToRgb cmin cmax v s).1.rgb =
          some (ctRgb (TEMP_WARM_HASS cmin cmax))) ∧
    (warm ≤ 0 → 0 < cold →
      (ZwaveColorLight.update_properties ctRgb rgbwToRgb cmin cmax v s).1.ct =
          some (TEMP_COLD_HASS cmin cmax) ∧
        (ZwaveColorLight.update_properties ctRgb rgbwToRgb cmin cmax v s).1.rgb =
          some (ctRgb (TEMP_COLD_HASS cmin cmax))) ∧
    (warm ≤ 0 → cold ≤ 0 →
      (ZwaveColorLight.update_properties ctRgb rgbwToRgb cmin cmax v s).1.ct =
          some (TEMP_MID_HASS cmin cmax) ∧
        (ZwaveColorLight.update_properties ctRgb rgbwToRgb cmin cmax v s).1.rgb =
          some rgb0) := by
  rw [update_properties_ok ctRgb rgbwToRgb cmin cmax v s d cc rgb0 warm cold hd hc hr hw]
  have hSz : (ZwaveDimmer.update_properties v s.toDimmerState).zw098 = true := by
    simpa [ZwaveDimmer.update_properties] using hz
  refine ⟨fun h1 => ?_, fun h1 h2 => ?_, fun h1 h2 => ?_⟩ <;>
    simp only [postColor, hSz, if_neg (not_not_intro hbit), eq_self_iff_true, if_true]
  · rw [if_pos h1]
    exact ⟨rfl, rfl⟩
  · rw [if_neg (by omega : ¬warm > 0), if_pos h2]
    exact ⟨rfl, rfl⟩
  · rw [if_neg (by omega : ¬warm > 0), if_neg (by omega : ¬cold > 0)]
    exact ⟨rfl, rfl⟩

/-- C5, witness for the amended theorem: ZW098 device with full bitmask
`0x1F`, payload warm byte `0x10` — color temperature becomes the WARM
point and rgb its conversion. -/
theorem C5_witness :
    (ZwaveColorLight.update_properties (fun _ => [9, 9, 9]) (fun r _ => r) 154 500
        ⟨50, some [35, 0, 0, 0, 0, 0, 0, 1, 0, 0, 0], some 31⟩
        ⟨⟨none, none, true⟩, none, none, none⟩).1.ct =
      some (TEMP_WARM_HASS 154 500) ∧
    (ZwaveColorLight.update_properties (fun _ => [9, 9, 9]) (fun r _ => r) 154 500
        ⟨50, some [35, 0, 0, 0, 0, 0, 0, 1, 0, 0, 0], some 31⟩
        ⟨⟨none, none, true⟩, none, none, none⟩).1.rgb = some [9, 9, 9] :=
  (C5_amended_zw098_decode (fun _ => [9, 9, 9]) (fun r _ => r) 154 500
    ⟨50, some [35, 0, 0, 0, 0, 0, 0, 1, 0, 0, 0], some 31⟩
    ⟨⟨none, none, true⟩, none, none, none⟩
    [35, 0, 0, 0, 0, 0, 0, 1, 0, 0, 0] 31 [0, 0, 0] 16 0
    rfl rfl rfl rfl rfl (by decide)).1 (by norm_num)

/-- C6, confirmed: on a ZW098 device, `turn_on` with a color-temperature
argument strictly above `TEMP_MID_HASS` sets `_ct` to the WARM point and
writes the literal payload `b'#000000ff00'` to the device color value; a
value at or below the midpoint sets the COLD point and writes
`b'#00000000ff'`. -/
theorem C6_zw098_colortemp (rgbToRgbw : List ℤ → List ℤ) (cmin cmax t : ℚ)
    (args : TurnOnArgs) (setRes : Bool) (v : LightValues) (s : ColorState)
    (hz : s.zw098 = true) (hct : args.colorTemp = some t)
    (hcv : v.colorData.isSome = true) :
    (TEMP_MID_HASS cmin cmax < t →
      (ZwaveColorLight.turn_on rgbToRgbw cmin cmax args setRes v s).light.ct =
          some (TEMP_WARM_HASS cmin cmax) ∧
        (ZwaveColorLight.turn_on rgbToRgbw cmin cmax args setRes v s).colorWrite =
          some [35, 0, 0, 0, 0, 0, 0, 15, 15, 0, 0]) ∧
    (t ≤ TEMP_MID_HASS cmin cmax →
      (ZwaveColorLight.turn_on rgbToRgbw cmin cmax args setRes v s).light.ct =
          some (TEMP_COLD_HASS cmin cmax) ∧
        (ZwaveColorLight.turn_on rgbToRgbw cmin cmax args setRes v s).colorWrite =
          some [35, 0, 0, 0, 0, 0, 0, 0, 0, 15, 15]) := by
  obtain ⟨ab, ar, act⟩ := args
  simp only at hct
  subst hct
  refine ⟨fun h => ?_, fun h => ?_⟩
  · simp [ZwaveColorLight.turn_on, hz, hcv, if_pos h]
  · simp [ZwaveColorLight.turn_on, hz, hcv, if_neg (not_lt.mpr h)]

/-- C6, witness: bounds (154, 500) give midpoint 327; requesting 400 selects
the WARM point and the `b'#000000ff00'` payload. -/
theorem C6_witness :
    (ZwaveColorLight.turn_on (fun l => l) 154 500 ⟨none, none, some 400⟩ true
        ⟨0, some [35], none⟩ ⟨⟨none, none, true⟩, none, none, none⟩).light.ct =
      some (TEMP_WARM_HASS 154 500) ∧
    (ZwaveColorLight.turn_on (fun l => l) 154 500 ⟨none, none, some 400⟩ true
        ⟨0, some [35], none⟩ ⟨⟨none, none, true⟩, none, none, none⟩).colorWrite =
      some [35, 0, 0, 0, 0, 0, 0, 15, 15, 0, 0] :=
  (C6_zw098_colortemp (fun l => l) 154 500 400 ⟨none, none, some 400⟩ true
    ⟨0, some [35], none⟩ ⟨⟨none, none, true⟩, none, none, none⟩
    rfl rfl rfl).1 (by norm_num [TEMP_MID_HASS])

/-- C9, confirmed: whenever a decode completes without raising on a device
whose bitmask has none of RED/GREEN/BLUE, the exposed rgb is `none` —
whatever the payload contained and whatever the white/workaround branches
did earlier. -/
theorem C9_no_rgb_channels (ctRgb : ℚ → List ℤ) (rgbwToRgb : List ℤ → ℤ → List ℤ)
    (cmin cmax : ℚ) (v : LightValues) (s s' : ColorState) (d : List ℕ) (cc : ℕ)
    (hd : v.colorData = some d) (hc : v.colorChannels = some cc)
    (h4 : cc &&& COLOR_CHANNEL_RED = 0) (h8 : cc &&& COLOR_CHANNEL_GREEN = 0)
    (h16 : cc &&& COLOR_CHANNEL_BLUE = 0)
    (hok : ZwaveColorLight.update_properties ctRgb rgbwToRgb cmin cmax v s = (s', false)) :
    s'.rgb = none := by
  cases hp : parseRgbTriple d with
  | error e =>
    obtain ⟨p, cd, cch⟩ := v
    simp only at hd hc
    subst hd
    subst hc
    simp only [ZwaveColorLight.update_properties, hp] at hok
    exact absurd (congrArg Prod.snd hok) (by simp)
  | ok rgb0 =>
    cases hw : whiteLevels cc d with
    | error e =>
      obtain ⟨p, cd, cch⟩ := v
      simp only at hd hc
      subst hd
      subst hc
      simp only [ZwaveColorLight.update_properties, hp, hw] at hok
      exact absurd (congrArg Prod.snd hok) (by simp)
    | ok wc =>
      obtain ⟨warm, cold⟩ := wc
      rw [update_properties_ok ctRgb rgbwToRgb cmin cmax v s d cc rgb0 warm cold
        hd hc hp hw] at hok
      simp only [Prod.mk.injEq] at hok
      obtain ⟨hs', -⟩ := hok
      rw [← hs']
      simp only [postColor]
      rw [if_pos (by simp [h4, h8, h16])]

/-- C9, witness: warm+cold-only bitmask (`0x03`), a successful decode of a
full payload, prior rgb present — the exposed rgb is reported absent. -/
theorem C9_witness :
    ((ZwaveColorLight.update_properties (fun _ => [7, 7, 7]) (fun rl w => rl ++ [w])
        154 500 ⟨0, some [35, 0, 0, 0, 0, 0, 0, 1, 0, 2, 0], some 3⟩
        ⟨⟨none, none, false⟩, none, some [1, 2, 3], none⟩).1).rgb = none :=
  C9_no_rgb_channels (fun _ => [7, 7, 7]) (fun rl w => rl ++ [w]) 154 500
    ⟨0, some [35, 0, 0, 0, 0, 0, 0, 1, 0, 2, 0], some 3⟩
    ⟨⟨none, none, false⟩, none, some [1, 2, 3], none⟩ _
    [35, 0, 0, 0, 0, 0, 0, 1, 0, 2, 0] 3 rfl rfl rfl rfl rfl rfl

/-- C10, confirmed: on a non-ZW098 device, `turn_on` with a color_temp
argument (and no rgb argument) writes nothing to the device color value,
raises nothing, and leaves the exposed `color_temp` and `rgb_color`
unchanged. -/
theorem C10_colortemp_ignored (rgbToRgbw : List ℤ → List ℤ) (cmin cmax t : ℚ)
    (args : TurnOnArgs) (setRes : Bool) (v : LightValues) (s : ColorState)
    (hz : s.zw098 = false) (hct : args.colorTemp = some t)
    (hrgb : args.rgbColor = none) :
    (ZwaveColorLight.turn_on rgbToRgbw cmin cmax args setRes v s).colorWrite = none ∧
    (ZwaveColorLight.turn_on rgbToRgbw cmin cmax args setRes v s).light.ct = s.ct ∧
    (ZwaveColorLight.turn_on rgbToRgbw cmin cmax args setRes v s).light.rgb = s.rgb ∧
    (ZwaveColorLight.turn_on rgbToRgbw cmin cmax args setRes v s).raised = false := by
  obtain ⟨ab, ar, act⟩ := args
  simp only at hct hrgb
  subst hct
  subst hrgb
  simp [ZwaveColorLight.turn_on, hz]

/-- C10, witness: non-workaround device, `turn_on(color_temp=400)` — no
color write, prior rgb/ct intact, no exception. -/
theorem C10_witness :
    (ZwaveColorLight.turn_on (fun l => l) 154 500 ⟨none, none, some 400⟩ true
        ⟨0, some [35], none⟩
        ⟨⟨none, none, false⟩, some 28, some [1, 2, 3], some 320⟩).colorWrite = none ∧
    (ZwaveColorLight.turn_on (fun l => l) 154 500 ⟨none, none, some 400⟩ true
        ⟨0, some [35], none⟩
        ⟨⟨none, none, false⟩, some 28, some [1, 2, 3], some 320⟩).light.ct = some 320 ∧
    (ZwaveColorLight.turn_on (fun l => l) 154 500 ⟨none, none, some 400⟩ true
        ⟨0, some [35], none⟩
        ⟨⟨none, none, false⟩, some 28, some [1, 2, 3], some 320⟩).light.rgb =
      some [1, 2, 3] ∧
    (ZwaveColorLight.turn_on (fun l => l) 154 500 ⟨none, none, some 400⟩ true
        ⟨0, some [35], none⟩
        ⟨⟨none, none, false⟩, some 28, some [1, 2, 3], some 320⟩).raised = false :=
  C10_colortemp_ignored (fun l => l) 154 500 400 ⟨none, none, some 400⟩ true
    ⟨0, some [35], none⟩ ⟨⟨none, none, false⟩, some 28, some [1, 2, 3], some 320⟩
    rfl rfl rfl

/-- C8, confirmed: for any RGB triple of bytes and any nonzero bitmask whose
set bits lie among RED/GREEN/BLUE (no white channels, no workaround),
decoding the payload that the `turn_on` encode path wrote yields back
exactly the same triple. -/
theorem C8_rgb_roundtrip (ctRgb : ℚ → List ℤ) (rgbwToRgb : List ℤ → ℤ → List ℤ)
    (rgbToRgbw : List ℤ → List ℤ) (cmin cmax : ℚ) (p r g b cc : ℕ)
    (v : LightValues) (s : ColorState)
    (hr : r < 256) (hg : g < 256) (hb : b < 256)
    (hz : s.zw098 = false) (hchan : s.colorChannels = some cc)
    (hcc3 : cc &&& 3 = 0) (hcc5 : cc < 32) (hcc0 : cc ≠ 0)
    (hcv : v.colorData.isSome = true) :
    (ZwaveColorLight.update_properties ctRgb rgbwToRgb cmin cmax
      { primaryData := p,
        colorData := (ZwaveColorLight.turn_on rgbToRgbw cmin cmax
          ⟨none, some [(r : ℤ), (g : ℤ), (b : ℤ)], none⟩ true v s).colorWrite,
        colorChannels := some cc } s).1.rgb = some [(r : ℤ), (g : ℤ), (b : ℤ)] := by
  obtain ⟨hb1, hb2, hb3⟩ := rgb_only_bits cc hcc5 hcc3
  have hbit := hb3 hcc0
  have hwrite : (ZwaveColorLight.turn_on rgbToRgbw cmin cmax
      ⟨none, some [(r : ℤ), (g : ℤ), (b : ℤ)], none⟩ true v s).colorWrite =
      some (35 :: encodeColorList [(r : ℤ), (g : ℤ), (b : ℤ)] ++ [0, 0, 0, 0]) := by
    simp [ZwaveColorLight.turn_on, hz, hchan, hcv,
      COLOR_CHANNEL_WARM_WHITE, COLOR_CHANNEL_COLD_WHITE, hb1, hb2]
  rw [hwrite]
  rw [update_properties_ok ctRgb rgbwToRgb cmin cmax _ s _ cc
    [(r : ℤ), (g : ℤ), (b : ℤ)] 0 0 rfl rfl
    (parseRgbTriple_encode r g b [0, 0, 0, 0] hr hg hb)
    (whiteLevels_no_white cc _ (by simpa [COLOR_CHANNEL_WARM_WHITE] using hb1)
      (by simpa [COLOR_CHANNEL_COLD_WHITE] using hb2))]
  simp only [postColor]
  rw [if_neg (not_not_intro (by
    simpa [COLOR_CHANNEL_RED, COLOR_CHANNEL_GREEN, COLOR_CHANNEL_BLUE] using hbit))]
  rw [if_neg (by simp [ZwaveDimmer.update_properties, hz])]
  rw [if_neg (by simp [COLOR_CHANNEL_WARM_WHITE, hb1])]
  rw [if_neg (by simp [COLOR_CHANNEL_COLD_WHITE, hb2])]

/-- C8, witness: triple (255, 0, 128) on bitmask `0x1C` round-trips through
encode then decode. -/
theorem C8_witness :
    (ZwaveColorLight.update_properties (fun _ => []) (fun rl _ => rl) 154 500
      { primaryData := 0,
        colorData := (ZwaveColorLight.turn_on (fun l => l) 154 500
          ⟨none, some [((255 : ℕ) : ℤ), ((0 : ℕ) : ℤ), ((128 : ℕ) : ℤ)], none⟩ true
          ⟨0, some [35], none⟩ ⟨⟨none, none, false⟩, some 28, none, none⟩).colorWrite,
        colorChannels := some 28 }
      ⟨⟨none, none, false⟩, some 28, none, none⟩).1.rgb =
      some [((255 : ℕ) : ℤ), ((0 : ℕ) : ℤ), ((128 : ℕ) : ℤ)] :=
  C8_rgb_roundtrip (fun _ => []) (fun rl _ => rl) (fun l => l) 154 500 0 255 0 128 28
    ⟨0, some [35], none⟩ ⟨⟨none, none, false⟩, some 28, none, none⟩
    (by norm_num) (by norm_num) (by norm_num) rfl rfl (by decide) (by decide)
    (by decide) rfl
